import Mathlib

/-!
Shallow embedding of `src/section-generator.py` (the configuration-intelligence
engine of the realty section generator) and verification of the claims about it.

Modelling conventions:
* Python dictionaries with a fixed key set become Lean structures; a key that the
  source may leave absent becomes an `Option` field, and `d.get(k, default)`
  becomes `field.getD default`.
* JSON-ish Python values (setting defaults, block dictionaries) are modelled by
  the `Json` inductive below; Python `None` is `Option.none` where the source
  tests `is not None`, and `Json.null` where a value is serialized.
* Code that can raise is modelled in `Except String`; the error payload records
  which Python exception / missing attribute fired.
* The catalog (`self.section_types`) is an association list keyed by type name.
-/

namespace Realty

/-- JSON-like values: the payloads stored in catalog documents, setting
defaults, and block dictionaries. -/
inductive Json where
  | null : Json
  | str (s : String) : Json
  | num (n : Int) : Json
  | bool (b : Bool) : Json
  | arr (elems : List Json) : Json
  | obj (fields : List (String × Json)) : Json

/-- Escape one character for JSON string output. -/
def jsonEscapeChar (c : Char) : String :=
  if c = '"' then "\\\""
  else if c = '\\' then "\\\\"
  else if c = '\n' then "\\n"
  else String.singleton c

/-- Escape a string for JSON output. -/
def jsonEscape (s : String) : String :=
  String.join (s.data.map jsonEscapeChar)

mutual

/-- Render a `Json` value as text (compact form of `json.dumps`; the source
pretty-prints with `indent=2`, but only the value, never its whitespace, is
consumed downstream). -/
def Json.render : Json → String
  | .null => "null"
  | .str s => "\"" ++ jsonEscape s ++ "\""
  | .num n => toString n
  | .bool b => if b then "true" else "false"
  | .arr elems => "[" ++ String.intercalate ", " (Json.renderList elems) ++ "]"
  | .obj fields => "\x7b" ++ String.intercalate ", " (Json.renderFields fields) ++ "\x7d"

/-- Render a list of `Json` values. -/
def Json.renderList : List Json → List String
  | [] => []
  | x :: xs => Json.render x :: Json.renderList xs

/-- Render the fields of a `Json` object. -/
def Json.renderFields : List (String × Json) → List String
  | [] => []
  | (k, v) :: fs => ("\"" ++ jsonEscape k ++ "\": " ++ Json.render v) :: Json.renderFields fs

end

/-- One `{value, label}` entry of the `options` list of a `select` setting. -/
structure Choice where
  value : String
  label : String

/-- A raw setting specification as it appears in the catalog document (or in the
generic fallback profile): a dictionary in which every key may be absent. -/
structure RawSetting where
  type : Option String := none
  id : Option String := none
  name : Option String := none
  label : Option String := none
  /-- Outer `Option`: is the `default` key present; inner: the key may hold `None`. -/
  default : Option (Option Json) := none
  required : Option Bool := none
  info : Option String := none
  category : Option String := none
  options : Option (List Choice) := none
  min : Option Int := none
  max : Option Int := none
  unit : Option String := none
  validation : Option Json := none

/-- The `min`/`max`/`unit` keys added to a normalized `range` setting. -/
structure RangeExt where
  min : Int
  max : Int
  unit : String

/-- A normalized setting dictionary as produced by
`SectionTypeAnalyzer._normalize_setting` (lines 104-133): the seven base keys
are always present; `options`, the range keys and `validation` are conditional. -/
structure Setting where
  type : String
  id : String
  label : String
  default : Option Json
  required : Bool
  info : String
  category : String
  options : Option (List Choice)
  range : Option RangeExt
  validation : Option Json

/-- A catalog entry for one section type (`sectionTypes` value): every key is
read with `.get` in the source, so every field may be absent. -/
structure Profile where
  description : Option String := none
  essentialSettings : Option (List RawSetting) := none
  recommendedSettings : Option (List RawSetting) := none
  advancedSettings : Option (List RawSetting) := none
  suggestedBlocks : Option (List Json) := none
  commonUseCases : Option (List String) := none

/-- Python `str.title()` restricted to the ASCII identifiers the program uses:
uppercase a letter that does not follow a letter, lowercase one that does. -/
def pyTitleAux : Bool → List Char → List Char
  | _, [] => []
  | prevCased, c :: cs =>
    if c.isAlpha then
      (if prevCased then c.toLower else c.toUpper) :: pyTitleAux true cs
    else
      c :: pyTitleAux false cs

/-- Python `str.title()`. -/
def pyTitle (s : String) : String :=
  String.mk (pyTitleAux false s.data)

/-- Embeds `SectionTypeAnalyzer._get_default_for_type` (lines 135-147). -/
def get_default_for_type (setting_type : String) : Option Json :=
  if setting_type = "text" then some (.str "Default text")
  else if setting_type = "textarea" then some (.str "Default description")
  else if setting_type = "color" then some (.str "#000000")
  else if setting_type = "image_picker" then none
  else if setting_type = "url" then some (.str "/")
  else if setting_type = "checkbox" then some (.bool false)
  else if setting_type = "range" then some (.num 50)
  else if setting_type = "select" then some (.str "")
  else some (.str "Default value")

/-- Embeds `SectionTypeAnalyzer._normalize_setting` (lines 104-133).  The label line
reads the id subscript eagerly while computing the fallback of the label
lookup, so it raises `KeyError` whenever the id key is absent — even when a
label is present, and even though the id line itself falls back to the name
key and then to the literal string setting.  When id is present that fallback
chain reduces to the id value itself. -/
def normalize_setting (setting : RawSetting) : Except String Setting :=
  match setting.id with
  | none => .error "KeyError: \x27id\x27"
  | some i =>
    .ok
      { type := setting.type.getD "text"
        id := i
        label := setting.label.getD (pyTitle (i.replace "_" " "))
        default := setting.default.getD (get_default_for_type (setting.type.getD "text"))
        required := setting.required.getD false
        info := setting.info.getD ""
        category := setting.category.getD "recommended"
        options := if setting.type = some "select" then setting.options else none
        range :=
          if setting.type = some "range" then
            some { min := setting.min.getD 0, max := setting.max.getD 100, unit := setting.unit.getD "" }
          else none
        validation := setting.validation }

/-- The three priority buckets built by `_organize_settings`. -/
structure Organized where
  essential : List Setting
  recommended : List Setting
  advanced : List Setting

/-- Embeds `SectionTypeAnalyzer._organize_settings` (lines 82-102): normalize each raw
list in order; the first raised `KeyError` aborts the whole analysis. -/
def organize_settings (section_config : Profile) : Except String Organized :=
  match (section_config.essentialSettings.getD []).mapM normalize_setting with
  | .error e => .error e
  | .ok essential =>
    match (section_config.recommendedSettings.getD []).mapM normalize_setting with
    | .error e => .error e
    | .ok recommended =>
      match (section_config.advancedSettings.getD []).mapM normalize_setting with
      | .error e => .error e
      | .ok advanced => .ok ⟨essential, recommended, advanced⟩

/-- Truthiness of `d.get(key)` for a list-valued key: the key is present and the
list is non-empty. -/
def truthyList {α : Type} (o : Option (List α)) : Bool :=
  !(o.getD []).isEmpty

/-- Embeds `SectionTypeAnalyzer._calculate_intelligence_score` (lines 149-174). -/
def calculate_intelligence_score (section_config : Profile) : Nat :=
  let score : Nat := 0
  let score := if truthyList section_config.essentialSettings then score + 30 else score
  let score := if truthyList section_config.recommendedSettings then score + 25 else score
  let advanced_count := (section_config.advancedSettings.getD []).length
  let score := if advanced_count > 0 then score + min (advanced_count * 5) 20 else score
  let score := if truthyList section_config.suggestedBlocks then score + 15 else score
  let score := if truthyList section_config.commonUseCases then score + 10 else score
  min score 100

/-- Embeds `SectionTypeAnalyzer._get_optimization_tips` (lines 176-205). -/
def get_optimization_tips (section_type : String) : List String :=
  if section_type = "hero" then
    ["Use high-quality background images for better visual impact",
     "Keep heading text concise and compelling",
     "Consider adding a secondary CTA button for better conversion"]
  else if section_type = "features" then
    ["Use consistent icon styles across all features",
     "Limit features to 3-6 for better readability",
     "Add hover effects to increase interactivity"]
  else if section_type = "testimonials" then
    ["Include customer photos for authenticity",
     "Use varied testimonial lengths for visual interest",
     "Consider adding company logos for B2B credibility"]
  else if section_type = "gallery" then
    ["Optimize images for web to improve loading speed",
     "Use consistent aspect ratios for better grid layout",
     "Add alt text for better accessibility"]
  else []

/-- The analysis dictionary returned by `analyze_section_type`.  On the
known-type path it is the profile copy updated with the six intelligence keys
(lines 71-78); on the generic path (lines 207-253) the keys
`suggested_settings`, `advanced_settings`, `suggested_blocks` and
`commonUseCases` are absent, hence those fields are `Option`s. -/
structure Report where
  description : Option String
  essentialSettings : Option (List RawSetting)
  recommendedSettings : Option (List RawSetting)
  advancedSettings : Option (List RawSetting)
  suggestedBlocks : Option (List Json)
  commonUseCases : Option (List String)
  intelligent_settings : Organized
  suggested_settings : Option (List Setting)
  advanced_settings : Option (List Setting)
  suggested_blocks : Option (List Json)
  intelligence_score : Nat
  optimization_tips : List String

/-- The dictionary built by `_get_intelligent_config` (lines 63-80): the profile
copy updated with the intelligence metadata. -/
def mk_intelligent_report (section_type : String) (p : Profile) (organized_settings : Organized) : Report :=
  { description := p.description
    essentialSettings := p.essentialSettings
    recommendedSettings := p.recommendedSettings
    advancedSettings := p.advancedSettings
    suggestedBlocks := p.suggestedBlocks
    commonUseCases := p.commonUseCases
    intelligent_settings := organized_settings
    suggested_settings := some (organized_settings.essential ++ organized_settings.recommended)
    advanced_settings := some organized_settings.advanced
    suggested_blocks := some (p.suggestedBlocks.getD [])
    intelligence_score := calculate_intelligence_score p
    optimization_tips := get_optimization_tips section_type }

/-- Embeds `SectionTypeAnalyzer._get_intelligent_config` (lines 63-80).  The source
re-indexes `self.section_types[section_type]`; the caller has already performed
the membership check, so the profile is passed in directly. -/
def get_intelligent_config (section_type : String) (p : Profile) : Except String Report :=
  match organize_settings p with
  | .error e => .error e
  | .ok organized_settings => .ok (mk_intelligent_report section_type p organized_settings)

/-- Embeds `SectionTypeAnalyzer._get_generic_config` (lines 207-253), verbatim: note
that `intelligent_settings` is hardcoded to three empty lists while the
synthesized settings sit only in the raw `essentialSettings` /
`recommendedSettings` / `advancedSettings` lists. -/
def get_generic_config (section_type : String) : Report :=
  { description := some ("Custom " ++ section_type ++ " section")
    essentialSettings := some
      [{ id := some "heading"
         type := some "text"
         label := some "Section Heading"
         default := some (some (.str (pyTitle section_type ++ " Section"))) }]
    recommendedSettings := some
      [{ id := some "background_color"
         type := some "color"
         label := some "Background Color"
         default := some (some (.str "#ffffff")) },
       { id := some "text_color"
         type := some "color"
         label := some "Text Color"
         default := some (some (.str "#000000")) }]
    advancedSettings := some
      [{ id := some "animation"
         type := some "select"
         label := some "Animation Effect"
         options := some [⟨"none", "None"⟩, ⟨"fadeIn", "Fade In"⟩]
         default := some (some (.str "fadeIn")) }]
    suggestedBlocks := some []
    commonUseCases := none
    intelligent_settings := ⟨[], [], []⟩
    suggested_settings := none
    advanced_settings := none
    suggested_blocks := none
    intelligence_score := 25
    optimization_tips := ["Consider adding more specific settings for better customization"] }

/-- Embeds `SectionTypeAnalyzer.analyze_section_type` (lines 54-61): known types go
through the intelligent path, everything else through the generic fallback. -/
def analyze_section_type (section_types : List (String × Profile)) (section_type : String) :
    Except String Report :=
  match List.lookup section_type section_types with
  | some p => get_intelligent_config section_type p
  | none => .ok (get_generic_config section_type)

/-- The parsed catalog document: both top-level keys are read with `.get`. -/
structure ConfigDoc where
  sectionTypes : Option (List (String × Profile)) := none
  intelligenceRules : Option (List (String × Json)) := none

/-- Outcome of opening and parsing the catalog source, the two `except` arms of
`_load_intelligence_config` made explicit. -/
inductive ConfigSource where
  | missing : ConfigSource
  | malformed : ConfigSource
  | valid (doc : ConfigDoc) : ConfigSource

/-- Embeds `SectionTypeAnalyzer._load_intelligence_config` (lines 42-52): a missing
file or invalid JSON degrades to a document with empty sectionTypes and intelligenceRules maps
instead of propagating the exception. -/
def load_intelligence_config : ConfigSource → ConfigDoc
  | .missing => { sectionTypes := some [], intelligenceRules := some [] }
  | .malformed => { sectionTypes := some [], intelligenceRules := some [] }
  | .valid doc => doc

/-- The analyzer object: `__init__` stores the config and the
`sectionTypes` lookup table (lines 36-40). -/
structure SectionTypeAnalyzer where
  config_path : String
  intelligence_config : ConfigDoc
  section_types : List (String × Profile)

/-- The `analyze_section_type` method viewed as a state transformer on the
analyzer object: the body only reads `self.section_types` and assigns nothing,
so the post-state is the pre-state. -/
def analyze_section_type_method (a : SectionTypeAnalyzer) (section_type : String) :
    Except String Report × SectionTypeAnalyzer :=
  (analyze_section_type a.section_types section_type, a)

/-- The `SectionConfig` dataclass (lines 15-24) as populated by
`generate_section` (`presets` keeps its empty default there). -/
structure SectionConfig where
  name : String
  type : String
  description : String
  settings : List Setting
  blocks : List Json
  presets : List Json
  intelligence_config : Report

/-- The `GeneratedSection` dataclass (lines 26-31). -/
structure GeneratedSection where
  liquid_content : String
  css_content : String
  js_content : String

/-- Python dict assignment as used by `SectionGenerator._get_preset_defaults`
(store the default under the setting id): overwrite in place, append fresh
keys in insertion order. -/
def dictInsert (d : List (String × Json)) (k : String) (v : Json) : List (String × Json) :=
  if (List.lookup k d).isSome then d.map (fun p => if p.1 = k then (k, v) else p)
  else d ++ [(k, v)]

/-- One iteration of the loop in `_get_preset_defaults` (lines 363-369): every
normalized setting carries a `default` key, so the guard
(default key present and value not None) is `isSome`. -/
def preset_step (defaults : List (String × Json)) (setting : Setting) : List (String × Json) :=
  match setting.default with
  | some v => dictInsert defaults setting.id v
  | none => defaults

/-- Embeds `SectionGenerator._get_preset_defaults` (lines 363-369). -/
def get_preset_defaults (settings : List Setting) : List (String × Json) :=
  settings.foldl preset_step []

/-- One preset dictionary of the schema. -/
structure Preset where
  name : String
  category : String
  settings : List (String × Json)

/-- The schema dictionary built by `_generate_intelligent_schema`
(`schemaClass` is the `"class"` key). -/
structure Schema where
  name : String
  tag : String
  schemaClass : String
  settings : List Setting
  blocks : List Json
  presets : List Preset

/-- Embeds `SectionGenerator._generate_intelligent_schema` (lines 332-361): regroup the
working settings by the own `category` tag of each descriptor, emit
essential+recommended, and append the advanced group when it is non-empty. -/
def generate_intelligent_schema (config : SectionConfig) : Schema :=
  let essential_settings := config.settings.filter (fun s => s.category = "essential")
  let recommended_settings := config.settings.filter (fun s => s.category = "recommended")
  let advanced_settings := config.settings.filter (fun s => s.category = "advanced")
  let schema : Schema :=
    { name := config.name
      tag := "section-" ++ config.type
      schemaClass := "section-" ++ config.type
      settings := essential_settings ++ recommended_settings
      blocks := config.blocks
      presets := [{ name := config.name
                    category := "Custom Sections"
                    settings := get_preset_defaults config.settings }] }
  if advanced_settings.isEmpty then schema
  else { schema with settings := schema.settings ++ advanced_settings }


/-- Serialize a normalized setting back to JSON in the key order used by the source. -/
def settingToJson (s : Setting) : Json :=
  .obj ([("type", .str s.type), ("id", .str s.id), ("label", .str s.label),
         ("default", s.default.getD .null), ("required", .bool s.required),
         ("info", .str s.info), ("category", .str s.category)]
    ++ (match s.options with
        | some cs => [("options", .arr (cs.map (fun c => .obj [("value", .str c.value), ("label", .str c.label)])))]
        | none => [])
    ++ (match s.range with
        | some rg => [("min", .num rg.min), ("max", .num rg.max), ("unit", .str rg.unit)]
        | none => [])
    ++ (match s.validation with
        | some v => [("validation", v)]
        | none => []))

/-- Serialize one preset. -/
def presetToJson (p : Preset) : Json :=
  .obj [("name", .str p.name), ("category", .str p.category), ("settings", .obj p.settings)]

/-- Serialize the schema for `json.dumps(schema, indent=2)`. -/
def schemaToJson (sc : Schema) : Json :=
  .obj [("name", .str sc.name), ("tag", .str sc.tag), ("class", .str sc.schemaClass),
        ("settings", .arr (sc.settings.map settingToJson)),
        ("blocks", .arr sc.blocks),
        ("presets", .arr (sc.presets.map presetToJson))]

/-- Constant text returned by `SectionGenerator._generate_hero_template` in the source
(braces, quotes and apostrophes escaped; the argument is ignored, as in the source). -/
def generate_hero_template (_config : SectionConfig) : String :=
  String.intercalate "\n" [
    "<section class=\"hero-section animate-on-scroll\"",
    "         \x7b% if section.settings.background_image %\x7d",
    "         style=\"background-image: url(\x27\x7b\x7b section.settings.background_image | image_url: width: 1920, height: 800 \x7d\x7d\x27);\"",
    "         \x7b% endif %\x7d>",
    "  <div class=\"hero-overlay\" \x7b% if section.settings.overlay_color %\x7dstyle=\"background-color: \x7b\x7b section.settings.overlay_color \x7d\x7d;\"\x7b% endif %\x7d></div>",
    "  <div class=\"container\">",
    "    <div class=\"hero-content\" style=\"text-align: \x7b\x7b section.settings.text_alignment \x7d\x7d;\">",
    "      <h1 class=\"hero-title\">\x7b\x7b section.settings.heading_text \x7d\x7d</h1>",
    "      \x7b% if section.settings.subheading_text %\x7d",
    "      <p class=\"hero-subtitle\">\x7b\x7b section.settings.subheading_text \x7d\x7d</p>",
    "      \x7b% endif %\x7d",
    "      \x7b% if section.settings.button_text %\x7d",
    "      <div class=\"hero-actions\">",
    "        <a href=\"\x7b\x7b section.settings.button_url \x7d\x7d\" class=\"btn btn-primary\">\x7b\x7b section.settings.button_text \x7d\x7d</a>",
    "      </div>",
    "      \x7b% endif %\x7d",
    "    </div>",
    "  </div>",
    "</section>"]

/-- Constant text returned by `SectionGenerator._generate_features_template` in the source
(braces, quotes and apostrophes escaped; the argument is ignored, as in the source). -/
def generate_features_template (_config : SectionConfig) : String :=
  String.intercalate "\n" [
    "<section class=\"features-section animate-on-scroll\">",
    "  <div class=\"container\">",
    "    \x7b% if section.settings.heading %\x7d",
    "    <div class=\"section-header\">",
    "      <h2>\x7b\x7b section.settings.heading \x7d\x7d</h2>",
    "      \x7b% if section.settings.subheading %\x7d",
    "      <p class=\"section-subtitle\">\x7b\x7b section.settings.subheading \x7d\x7d</p>",
    "      \x7b% endif %\x7d",
    "    </div>",
    "    \x7b% endif %\x7d",
    "",
    "    <div class=\"features-grid\" style=\"grid-template-columns: repeat(\x7b\x7b section.settings.columns | default: 3 \x7d\x7d, 1fr);\">",
    "      \x7b% for block in section.blocks %\x7d",
    "      <div class=\"feature-card\">",
    "        \x7b% if block.settings.icon %\x7d",
    "        <div class=\"feature-icon\">",
    "          <img src=\"\x7b\x7b block.settings.icon | image_url: width: 64, height: 64 \x7d\x7d\" alt=\"Feature icon\" />",
    "        </div>",
    "        \x7b% endif %\x7d",
    "        \x7b% if block.settings.title %\x7d",
    "        <h3>\x7b\x7b block.settings.title \x7d\x7d</h3>",
    "        \x7b% endif %\x7d",
    "        \x7b% if block.settings.description %\x7d",
    "        <p>\x7b\x7b block.settings.description \x7d\x7d</p>",
    "        \x7b% endif %\x7d",
    "        \x7b% if block.settings.link %\x7d",
    "        <a href=\"\x7b\x7b block.settings.link \x7d\x7d\" class=\"btn btn-outline\">Learn More</a>",
    "        \x7b% endif %\x7d",
    "      </div>",
    "      \x7b% endfor %\x7d",
    "    </div>",
    "  </div>",
    "</section>"]

/-- Constant text returned by `SectionGenerator._generate_testimonials_template` in the source
(braces, quotes and apostrophes escaped; the argument is ignored, as in the source). -/
def generate_testimonials_template (_config : SectionConfig) : String :=
  String.intercalate "\n" [
    "<section class=\"testimonials-section animate-on-scroll\">",
    "  <div class=\"container\">",
    "    \x7b% if section.settings.heading %\x7d",
    "    <div class=\"section-header\">",
    "      <h2>\x7b\x7b section.settings.heading \x7d\x7d</h2>",
    "    </div>",
    "    \x7b% endif %\x7d",
    "",
    "    <div class=\"testimonials-grid\">",
    "      \x7b% for block in section.blocks %\x7d",
    "      <div class=\"testimonial-card\">",
    "        \x7b% if section.settings.show_ratings %\x7d",
    "        <div class=\"testimonial-rating\">",
    "          \x7b% for i in (1..5) %\x7d",
    "          <span class=\"star \x7b% if i <= block.settings.rating %\x7dfilled\x7b% endif %\x7d\">★</span>",
    "          \x7b% endfor %\x7d",
    "        </div>",
    "        \x7b% endif %\x7d",
    "        <div class=\"testimonial-content\">",
    "          <p>\"\x7b\x7b block.settings.content \x7d\x7d\"</p>",
    "        </div>",
    "        <div class=\"testimonial-author\">",
    "          \x7b% if block.settings.avatar %\x7d",
    "          <div class=\"author-avatar\">",
    "            <img src=\"\x7b\x7b block.settings.avatar | image_url: width: 60, height: 60 \x7d\x7d\" alt=\"\x7b\x7b block.settings.author \x7d\x7d\" />",
    "          </div>",
    "          \x7b% endif %\x7d",
    "          <div class=\"author-info\">",
    "            \x7b% if block.settings.author %\x7d",
    "            <h4>\x7b\x7b block.settings.author \x7d\x7d</h4>",
    "            \x7b% endif %\x7d",
    "            \x7b% if block.settings.role %\x7d",
    "            <p>\x7b\x7b block.settings.role \x7d\x7d</p>",
    "            \x7b% endif %\x7d",
    "          </div>",
    "        </div>",
    "      </div>",
    "      \x7b% endfor %\x7d",
    "    </div>",
    "  </div>",
    "</section>"]

/-- Constant text returned by `SectionGenerator._generate_generic_template` in the source
(braces, quotes and apostrophes escaped; the argument is ignored, as in the source). -/
def generate_generic_template (_config : SectionConfig) : String :=
  String.intercalate "\n" [
    "<section class=\"custom-section animate-on-scroll\">",
    "  <div class=\"container\">",
    "    \x7b% if section.settings.heading %\x7d",
    "    <div class=\"section-header\">",
    "      <h2>\x7b\x7b section.settings.heading \x7d\x7d</h2>",
    "      \x7b% if section.settings.subheading %\x7d",
    "      <p>\x7b\x7b section.settings.subheading \x7d\x7d</p>",
    "      \x7b% endif %\x7d",
    "    </div>",
    "    \x7b% endif %\x7d",
    "",
    "    <div class=\"section-content\">",
    "      \x7b% for block in section.blocks %\x7d",
    "      <div class=\"custom-block\">",
    "        \x7b% for setting in block.settings %\x7d",
    "        \x7b% if setting.value %\x7d",
    "        <div class=\"block-item\">",
    "          <strong>\x7b\x7b setting.label \x7d\x7d:</strong> \x7b\x7b setting.value \x7d\x7d",
    "        </div>",
    "        \x7b% endif %\x7d",
    "        \x7b% endfor %\x7d",
    "      </div>",
    "      \x7b% endfor %\x7d",
    "    </div>",
    "  </div>",
    "</section>"]

/-- Constant text returned by `SectionGenerator._generate_hero_css` in the source
(braces, quotes and apostrophes escaped; the argument is ignored, as in the source). -/
def generate_hero_css (_config : SectionConfig) : String :=
  String.intercalate "\n" [
    ".hero-section \x7b",
    "  position: relative;",
    "  min-height: \x7b\x7b section.settings.height | default: 500 \x7d\x7dpx;",
    "  display: flex;",
    "  align-items: center;",
    "  background-size: cover;",
    "  background-position: center;",
    "  background-repeat: no-repeat;",
    "\x7d",
    "",
    ".hero-overlay \x7b",
    "  position: absolute;",
    "  top: 0;",
    "  left: 0;",
    "  right: 0;",
    "  bottom: 0;",
    "  background: linear-gradient(135deg, rgba(0,0,0,0.5) 0%, rgba(0,0,0,0.3) 100%);",
    "\x7d",
    "",
    ".hero-content \x7b",
    "  position: relative;",
    "  z-index: 2;",
    "  color: \x7b\x7b section.settings.text_color | default: \x27#ffffff\x27 \x7d\x7d;",
    "  max-width: 800px;",
    "  margin: 0 auto;",
    "\x7d",
    "",
    ".hero-title \x7b",
    "  font-size: clamp(2rem, 5vw, 4rem);",
    "  font-weight: bold;",
    "  margin-bottom: 1rem;",
    "  text-shadow: 2px 2px 4px rgba(0,0,0,0.5);",
    "\x7d",
    "",
    ".hero-subtitle \x7b",
    "  font-size: 1.25rem;",
    "  margin-bottom: 2rem;",
    "  opacity: 0.9;",
    "  text-shadow: 1px 1px 2px rgba(0,0,0,0.5);",
    "\x7d",
    "",
    ".hero-actions \x7b",
    "  display: flex;",
    "  gap: 1rem;",
    "  flex-wrap: wrap;",
    "\x7d",
    "",
    "@media (max-width: 768px) \x7b",
    "  .hero-actions \x7b",
    "    flex-direction: column;",
    "    align-items: center;",
    "  \x7d",
    "\x7d"]

/-- Constant text returned by `SectionGenerator._generate_features_css` in the source
(braces, quotes and apostrophes escaped; the argument is ignored, as in the source). -/
def generate_features_css (_config : SectionConfig) : String :=
  String.intercalate "\n" [
    ".features-section \x7b",
    "  padding: 4rem 0;",
    "  background-color: \x7b\x7b section.settings.background_color | default: \x27#ffffff\x27 \x7d\x7d;",
    "\x7d",
    "",
    ".features-grid \x7b",
    "  display: grid;",
    "  gap: 2rem;",
    "  margin-top: 3rem;",
    "\x7d",
    "",
    ".feature-card \x7b",
    "  text-align: center;",
    "  padding: 2rem;",
    "  border-radius: 0.75rem;",
    "  background: white;",
    "  box-shadow: 0 4px 6px -1px rgba(0, 0, 0, 0.1);",
    "  transition: all 0.3s ease;",
    "\x7d",
    "",
    ".feature-card:hover \x7b",
    "  transform: translateY(-4px);",
    "  box-shadow: 0 10px 15px -3px rgba(0, 0, 0, 0.1);",
    "\x7d",
    "",
    ".feature-icon \x7b",
    "  width: 80px;",
    "  height: 80px;",
    "  margin: 0 auto 1.5rem;",
    "  background: linear-gradient(135deg, var(--color-primary), var(--color-secondary));",
    "  border-radius: 50%;",
    "  display: flex;",
    "  align-items: center;",
    "  justify-content: center;",
    "  color: white;",
    "\x7d",
    "",
    ".feature-card h3 \x7b",
    "  margin-bottom: 1rem;",
    "  color: #111827;",
    "\x7d",
    "",
    ".feature-card p \x7b",
    "  color: #6b7280;",
    "  line-height: 1.6;",
    "\x7d",
    "",
    "@media (max-width: 768px) \x7b",
    "  .features-grid \x7b",
    "    grid-template-columns: 1fr;",
    "  \x7d",
    "\x7d"]

/-- Constant text returned by `SectionGenerator._generate_testimonials_css` in the source
(braces, quotes and apostrophes escaped; the argument is ignored, as in the source). -/
def generate_testimonials_css (_config : SectionConfig) : String :=
  String.intercalate "\n" [
    ".testimonials-section \x7b",
    "  padding: 4rem 0;",
    "  background-color: \x7b\x7b section.settings.background_color | default: \x27#f9fafb\x27 \x7d\x7d;",
    "\x7d",
    "",
    ".testimonials-grid \x7b",
    "  display: grid;",
    "  grid-template-columns: repeat(auto-fit, minmax(350px, 1fr));",
    "  gap: 2rem;",
    "  margin-top: 3rem;",
    "\x7d",
    "",
    ".testimonial-card \x7b",
    "  background: white;",
    "  padding: 2rem;",
    "  border-radius: 0.75rem;",
    "  box-shadow: 0 4px 6px -1px rgba(0, 0, 0, 0.1);",
    "  transition: all 0.3s ease;",
    "\x7d",
    "",
    ".testimonial-card:hover \x7b",
    "  transform: translateY(-4px);",
    "  box-shadow: 0 10px 15px -3px rgba(0, 0, 0, 0.1);",
    "\x7d",
    "",
    ".testimonial-rating \x7b",
    "  margin-bottom: 1rem;",
    "\x7d",
    "",
    ".star \x7b",
    "  color: #d1d5db;",
    "  font-size: 1.25rem;",
    "\x7d",
    "",
    ".star.filled \x7b",
    "  color: #fbbf24;",
    "\x7d",
    "",
    ".testimonial-content p \x7b",
    "  font-size: 1.125rem;",
    "  line-height: 1.7;",
    "  color: #374151;",
    "  font-style: italic;",
    "  margin-bottom: 1.5rem;",
    "\x7d",
    "",
    ".testimonial-author \x7b",
    "  display: flex;",
    "  align-items: center;",
    "  gap: 1rem;",
    "\x7d",
    "",
    ".author-avatar \x7b",
    "  width: 60px;",
    "  height: 60px;",
    "  border-radius: 50%;",
    "  overflow: hidden;",
    "  flex-shrink: 0;",
    "\x7d",
    "",
    ".author-avatar img \x7b",
    "  width: 100%;",
    "  height: 100%;",
    "  object-fit: cover;",
    "\x7d",
    "",
    ".author-info h4 \x7b",
    "  margin-bottom: 0.25rem;",
    "  color: #111827;",
    "\x7d",
    "",
    ".author-info p \x7b",
    "  color: #6b7280;",
    "  font-size: 0.875rem;",
    "\x7d",
    "",
    "@media (max-width: 768px) \x7b",
    "  .testimonials-grid \x7b",
    "    grid-template-columns: 1fr;",
    "  \x7d",
    "\x7d"]

/-- Constant text returned by `SectionGenerator._generate_generic_css` in the source
(braces, quotes and apostrophes escaped; the argument is ignored, as in the source). -/
def generate_generic_css (_config : SectionConfig) : String :=
  String.intercalate "\n" [
    ".custom-section \x7b",
    "  padding: 4rem 0;",
    "  background-color: \x7b\x7b section.settings.background_color | default: \x27#ffffff\x27 \x7d\x7d;",
    "\x7d",
    "",
    ".section-content \x7b",
    "  margin-top: 3rem;",
    "\x7d",
    "",
    ".custom-block \x7b",
    "  background: white;",
    "  padding: 2rem;",
    "  border-radius: 0.75rem;",
    "  box-shadow: 0 4px 6px -1px rgba(0, 0, 0, 0.1);",
    "  margin-bottom: 2rem;",
    "\x7d",
    "",
    ".block-item \x7b",
    "  margin-bottom: 1rem;",
    "  padding-bottom: 1rem;",
    "  border-bottom: 1px solid #e5e7eb;",
    "\x7d",
    "",
    ".block-item:last-child \x7b",
    "  border-bottom: none;",
    "  margin-bottom: 0;",
    "  padding-bottom: 0;",
    "\x7d"]

/-- Constant text returned by `SectionGenerator._generate_hero_js` in the source
(braces, quotes and apostrophes escaped; the argument is ignored, as in the source). -/
def generate_hero_js (_config : SectionConfig) : String :=
  String.intercalate "\n" [
    "// Hero Section JavaScript",
    "document.addEventListener(\x27DOMContentLoaded\x27, function() \x7b",
    "  const heroSection = document.querySelector(\x27.hero-section\x27);",
    "",
    "  if (heroSection) \x7b",
    "    // Parallax effect if enabled",
    "    \x7b% if section.settings.parallax_effect %\x7d",
    "    window.addEventListener(\x27scroll\x27, function() \x7b",
    "      const scrolled = window.pageYOffset;",
    "      const parallax = scrolled * 0.5;",
    "      heroSection.style.transform = `translateY($\x7bparallax\x7dpx)`;",
    "    \x7d);",
    "    \x7b% endif %\x7d",
    "",
    "    // Animation on scroll",
    "    const observer = new IntersectionObserver((entries) => \x7b",
    "      entries.forEach(entry => \x7b",
    "        if (entry.isIntersecting) \x7b",
    "          entry.target.classList.add(\x27animated\x27);",
    "        \x7d",
    "      \x7d);",
    "    \x7d);",
    "",
    "    observer.observe(heroSection);",
    "  \x7d",
    "\x7d);"]

/-- Constant text returned by `SectionGenerator._generate_testimonials_js` in the source
(braces, quotes and apostrophes escaped; the argument is ignored, as in the source). -/
def generate_testimonials_js (_config : SectionConfig) : String :=
  String.intercalate "\n" [
    "// Testimonials Section JavaScript",
    "document.addEventListener(\x27DOMContentLoaded\x27, function() \x7b",
    "  const testimonialsContainer = document.querySelector(\x27.testimonials-grid\x27);",
    "",
    "  if (testimonialsContainer && \x7b\x7b section.settings.autoplay | default: true \x7d\x7d) \x7b",
    "    let currentIndex = 0;",
    "    const testimonials = testimonialsContainer.children;",
    "    const interval = 5000; // 5 seconds",
    "",
    "    function showNextTestimonial() \x7b",
    "      testimonials[currentIndex].classList.remove(\x27active\x27);",
    "      currentIndex = (currentIndex + 1) % testimonials.length;",
    "      testimonials[currentIndex].classList.add(\x27active\x27);",
    "    \x7d",
    "",
    "    // Auto-rotate testimonials",
    "    setInterval(showNextTestimonial, interval);",
    "",
    "    // Add click handlers for manual navigation if needed",
    "    testimonials.forEach((testimonial, index) => \x7b",
    "      testimonial.addEventListener(\x27click\x27, () => \x7b",
    "        testimonials[currentIndex].classList.remove(\x27active\x27);",
    "        currentIndex = index;",
    "        testimonials[currentIndex].classList.add(\x27active\x27);",
    "      \x7d);",
    "    \x7d);",
    "  \x7d",
    "\x7d);"]

/-- Constant text returned by `SectionGenerator._generate_generic_js` in the source
(braces, quotes and apostrophes escaped; the argument is ignored, as in the source). -/
def generate_generic_js (_config : SectionConfig) : String :=
  String.intercalate "\n" [
    "// Generic Section JavaScript",
    "document.addEventListener(\x27DOMContentLoaded\x27, function() \x7b",
    "  const section = document.querySelector(\x27.custom-section\x27);",
    "",
    "  if (section) \x7b",
    "    // Add animation on scroll",
    "    const observer = new IntersectionObserver((entries) => \x7b",
    "      entries.forEach(entry => \x7b",
    "        if (entry.isIntersecting) \x7b",
    "          entry.target.classList.add(\x27animated\x27);",
    "        \x7d",
    "      \x7d);",
    "    \x7d);",
    "",
    "    observer.observe(section);",
    "  \x7d",
    "\x7d);"]

/-- Attribute lookup `self._generate_<...>` on `SectionGenerator`: exactly the
eleven constant-text generator methods above are defined on the class; looking
up any other name raises `AttributeError` (the error payload is the missing
attribute name).  The dispatch dictionaries in `_generate_template_content`,
`_generate_css` and `_generate_js` also name `_generate_gallery_template`,
`_generate_cta_template`, `_generate_contact_template`,
`_generate_newsletter_template`, `_generate_stats_template`,
`_generate_gallery_css`, `_generate_cta_css`, `_generate_contact_css`,
`_generate_newsletter_css`, `_generate_stats_css`, `_generate_gallery_js`,
`_generate_contact_js`, `_generate_newsletter_js` and `_generate_stats_js`,
none of which exist anywhere in the source file. -/
def getattr_method (m : String) : Except String (SectionConfig → String) :=
  if m = "_generate_hero_template" then .ok generate_hero_template
  else if m = "_generate_features_template" then .ok generate_features_template
  else if m = "_generate_testimonials_template" then .ok generate_testimonials_template
  else if m = "_generate_generic_template" then .ok generate_generic_template
  else if m = "_generate_hero_css" then .ok generate_hero_css
  else if m = "_generate_features_css" then .ok generate_features_css
  else if m = "_generate_testimonials_css" then .ok generate_testimonials_css
  else if m = "_generate_generic_css" then .ok generate_generic_css
  else if m = "_generate_hero_js" then .ok generate_hero_js
  else if m = "_generate_testimonials_js" then .ok generate_testimonials_js
  else if m = "_generate_generic_js" then .ok generate_generic_js
  else .error m

/-- Embeds `SectionGenerator._generate_template_content` (lines 371-386).  Building the
`templates` dictionary evaluates each `self._generate_*` attribute in key
order; `self._generate_gallery_template` is undefined, so the construction
raises `AttributeError` before any dispatch can happen. -/
def generate_template_content (config : SectionConfig) : Except String String :=
  match getattr_method "_generate_hero_template" with
  | .error e => .error e
  | .ok hero =>
  match getattr_method "_generate_features_template" with
  | .error e => .error e
  | .ok features =>
  match getattr_method "_generate_testimonials_template" with
  | .error e => .error e
  | .ok testimonials =>
  match getattr_method "_generate_gallery_template" with
  | .error e => .error e
  | .ok gallery =>
  match getattr_method "_generate_cta_template" with
  | .error e => .error e
  | .ok cta =>
  match getattr_method "_generate_contact_template" with
  | .error e => .error e
  | .ok contact =>
  match getattr_method "_generate_newsletter_template" with
  | .error e => .error e
  | .ok newsletter =>
  match getattr_method "_generate_stats_template" with
  | .error e => .error e
  | .ok stats =>
    let templates : List (String × (SectionConfig → String)) :=
      [("hero", hero), ("features", features), ("testimonials", testimonials),
       ("gallery", gallery), ("cta", cta), ("contact", contact),
       ("newsletter", newsletter), ("stats", stats)]
    let generator := (List.lookup config.type templates).getD generate_generic_template
    .ok (generator config)

/-- Embeds `SectionGenerator._generate_css` (lines 519-534): same construction; the
first undefined attribute is `_generate_gallery_css`. -/
def generate_css (config : SectionConfig) : Except String String :=
  match getattr_method "_generate_hero_css" with
  | .error e => .error e
  | .ok hero =>
  match getattr_method "_generate_features_css" with
  | .error e => .error e
  | .ok features =>
  match getattr_method "_generate_testimonials_css" with
  | .error e => .error e
  | .ok testimonials =>
  match getattr_method "_generate_gallery_css" with
  | .error e => .error e
  | .ok gallery =>
  match getattr_method "_generate_cta_css" with
  | .error e => .error e
  | .ok cta =>
  match getattr_method "_generate_contact_css" with
  | .error e => .error e
  | .ok contact =>
  match getattr_method "_generate_newsletter_css" with
  | .error e => .error e
  | .ok newsletter =>
  match getattr_method "_generate_stats_css" with
  | .error e => .error e
  | .ok stats =>
    let css_templates : List (String × (SectionConfig → String)) :=
      [("hero", hero), ("features", features), ("testimonials", testimonials),
       ("gallery", gallery), ("cta", cta), ("contact", contact),
       ("newsletter", newsletter), ("stats", stats)]
    let generator := (List.lookup config.type css_templates).getD generate_generic_css
    .ok (generator config)

/-- Embeds `SectionGenerator._generate_js` (lines 762-775): the dictionary has no
`features`/`cta` keys; the first undefined attribute is `_generate_gallery_js`. -/
def generate_js (config : SectionConfig) : Except String String :=
  match getattr_method "_generate_hero_js" with
  | .error e => .error e
  | .ok hero =>
  match getattr_method "_generate_testimonials_js" with
  | .error e => .error e
  | .ok testimonials =>
  match getattr_method "_generate_gallery_js" with
  | .error e => .error e
  | .ok gallery =>
  match getattr_method "_generate_contact_js" with
  | .error e => .error e
  | .ok contact =>
  match getattr_method "_generate_newsletter_js" with
  | .error e => .error e
  | .ok newsletter =>
  match getattr_method "_generate_stats_js" with
  | .error e => .error e
  | .ok stats =>
    let js_templates : List (String × (SectionConfig → String)) :=
      [("hero", hero), ("testimonials", testimonials), ("gallery", gallery),
       ("contact", contact), ("newsletter", newsletter), ("stats", stats)]
    let generator := (List.lookup config.type js_templates).getD generate_generic_js
    .ok (generator config)

/-- Embeds `SectionGenerator._generate_liquid` (lines 299-330): schema, then template
content (which raises), then the assembled liquid text. -/
def generate_liquid (config : SectionConfig) : Except String String :=
  let schema := generate_intelligent_schema config
  match generate_template_content config with
  | .error e => .error e
  | .ok template_content =>
    let intelligence_info :=
      "\n<!-- Section Intelligence Info:\nType: " ++ config.type
        ++ "\nIntelligence Score: " ++ toString config.intelligence_config.intelligence_score
        ++ "/100\nSettings: " ++ toString config.settings.length
        ++ " total (" ++ toString (config.settings.filter (fun s => s.category = "essential")).length
        ++ " essential)\nBlocks: " ++ toString config.blocks.length
        ++ " available\n-->\n\n"
    .ok (intelligence_info
      ++ "\x7b%- capture section_settings -%\x7d\n"
      ++ Json.render (schemaToJson schema)
      ++ "\n\x7b% endcapture -%\x7d\n\n<script type=\"application/json\" data-section-type=\""
      ++ config.type
      ++ "\" data-section-settings>\n  \x7b\x7b section_settings | raw \x7d\x7d\n</script>\n\n"
      ++ template_content)

/-- Lines 268-290 of `generate_section`: default the description, select the
working settings (the intelligent_settings membership test is true on both analyzer
paths, so the guard reduces to `use_advanced`; the `else` arm reads
`suggested_settings` with a `[]` default), and build the `SectionConfig`. -/
def build_section_config (analysis : Report) (section_name section_type description : String)
    (use_advanced : Bool) : SectionConfig :=
  let description := if description = "" then analysis.description.getD ("Custom " ++ section_type ++ " section") else description
  let settings :=
    if use_advanced then
      let intelligent_settings := analysis.intelligent_settings
      let s := intelligent_settings.essential ++ intelligent_settings.recommended
      if use_advanced then s ++ intelligent_settings.advanced else s
    else
      analysis.suggested_settings.getD []
  { name := section_name
    type := section_type
    description := description
    settings := settings
    blocks := analysis.suggested_blocks.getD []
    presets := []
    intelligence_config := analysis }

/-- Embeds `SectionGenerator.generate_section` (lines 262-297). -/
def generate_section (section_types : List (String × Profile))
    (section_name section_type description : String) (use_advanced : Bool) :
    Except String GeneratedSection :=
  match analyze_section_type section_types section_type with
  | .error e => .error e
  | .ok analysis =>
    let config := build_section_config analysis section_name section_type description use_advanced
    match generate_liquid config with
    | .error e => .error e
    | .ok liquid_content =>
      match generate_css config with
      | .error e => .error e
      | .ok css_content =>
        match generate_js config with
        | .error e => .error e
        | .ok js_content =>
          .ok { liquid_content := liquid_content, css_content := css_content, js_content := js_content }


/-! ### Helper lemmas -/

/-- Case analysis on a successful analysis: either the type is unknown and the
report is the generic one, or the type is known and the report is the organized
profile. -/
lemma analyze_ok_elim (section_types : List (String × Profile)) (t : String) (r : Report)
    (h : analyze_section_type section_types t = .ok r) :
    (List.lookup t section_types = none ∧ r = get_generic_config t)
    ∨ ∃ p org, List.lookup t section_types = some p ∧ organize_settings p = .ok org
        ∧ r = mk_intelligent_report t p org := by
  unfold analyze_section_type at h
  split at h
  next p hp =>
    right
    unfold get_intelligent_config at h
    split at h
    next e _ => exact Except.noConfusion h
    next org horg =>
      injection h with h
      exact ⟨p, org, hp, horg, h.symm⟩
  next hp =>
    injection h with h
    exact Or.inl ⟨hp, h.symm⟩

/-- On every report an analysis can return, `suggested_settings` read with the
`[]` default equals essential ⧺ recommended of the organized settings. -/
lemma suggested_getD_eq (section_types : List (String × Profile)) (t : String) (r : Report)
    (h : analyze_section_type section_types t = .ok r) :
    r.suggested_settings.getD []
      = r.intelligent_settings.essential ++ r.intelligent_settings.recommended := by
  rcases analyze_ok_elim section_types t r h with ⟨_, rfl⟩ | ⟨p, org, _, _, rfl⟩ <;> rfl

/-! ### C1 — totality of generation -/

/-- C1: the claim says `generate` always returns a bundle and never raises.  In
the source, `_generate_template_content` (and likewise `_generate_css` /
`_generate_js`) builds its dispatch dictionary from `self._generate_gallery_template`,
`self._generate_cta_template`, … — attributes that are defined nowhere in the
file — so every single call to `generate_section` raises `AttributeError`
before producing any artifact.  Evaluated here at the request from the usage
example shipped in the source (`--name hero-banner --type hero`). -/
theorem C1_generate_always_raises :
    generate_section [] "hero-banner" "hero" "Main homepage hero section" true
      = .error "_generate_gallery_template" := rfl

/-! ### C2 — generic-path synthesis -/

/-- C2: the claim says the organized settings of the generic report contain exactly
the synthesized `heading` / `background_color` / `text_color` / `animation`
descriptors.  In the source, `_get_generic_config` stores those four only in the
raw `essentialSettings` / `recommendedSettings` / `advancedSettings` lists
(which no consumer reads) and hardcodes `intelligent_settings` to three empty
lists; score, blocks and tips do match the claim.  Evaluated at the unknown
type `"widget"`. -/
theorem C2_generic_organized_settings_empty :
    ∃ r, analyze_section_type [] "widget" = .ok r
      ∧ r.intelligent_settings.essential = []
      ∧ r.intelligent_settings.recommended = []
      ∧ r.intelligent_settings.advanced = []
      ∧ r.essentialSettings = some
          [{ id := some "heading"
             type := some "text"
             label := some "Section Heading"
             default := some (some (.str "Widget Section")) }]
      ∧ (r.recommendedSettings.getD []).map RawSetting.id
          = [some "background_color", some "text_color"]
      ∧ (r.advancedSettings.getD []).map RawSetting.id = [some "animation"]
      ∧ r.suggestedBlocks = some []
      ∧ r.intelligence_score = 25
      ∧ r.optimization_tips
          = ["Consider adding more specific settings for better customization"] :=
  ⟨_, rfl, rfl, rfl, rfl, rfl, rfl, rfl, rfl, rfl, rfl⟩

/-! ### C5 — totality of analysis -/

/-- The catalog for C5: one known type whose single raw setting has a `label`
and a `type` but omits the optional `id` key. -/
def catalogNoId : List (String × Profile) :=
  [("banner", { essentialSettings := some [{ type := some "text", label := some "Heading" }] })]

/-- C5: the claim says `analyze` never raises, even when raw specifications
omit optional fields such as `id`.  In the source, the `label` line of
`_normalize_setting` evaluates the id subscript eagerly as the label fallback,
so a raw setting without an `id` key makes the whole analysis raise `KeyError`
(although the adjacent id line has its own name-or-literal fallback and a
`label` is even present here). -/
theorem C5_analysis_raises_without_id :
    analyze_section_type catalogNoId "banner" = .error "KeyError: \x27id\x27" := rfl

/-! ### C9 — catalog load degradation -/

/-- C9: when the catalog source is missing or malformed, `_load_intelligence_config`
returns the empty catalog instead of propagating the failure, and every
subsequent analysis takes the generic path. -/
theorem C9_load_degrades_to_generic (src : ConfigSource)
    (h : src = .missing ∨ src = .malformed) :
    (load_intelligence_config src).sectionTypes = some []
      ∧ ∀ t, analyze_section_type ((load_intelligence_config src).sectionTypes.getD []) t
          = .ok (get_generic_config t) := by
  rcases h with rfl | rfl <;> exact ⟨rfl, fun _ => rfl⟩

/-- Witness for C9 at the concrete source state `missing` and type `"hero"`. -/
theorem C9_witness :
    (load_intelligence_config .missing).sectionTypes = some []
      ∧ analyze_section_type ((load_intelligence_config .missing).sectionTypes.getD []) "hero"
          = .ok (get_generic_config "hero") :=
  ⟨(C9_load_degrades_to_generic .missing (Or.inl rfl)).1,
   (C9_load_degrades_to_generic .missing (Or.inl rfl)).2 "hero"⟩

/-! ### C10 — idempotence of analysis -/

/-- C10: with an unchanged catalog, a second `analyze_section_type` call returns
a structurally equal report, and neither call mutates the analyzer state (in
particular the catalog): the method body only reads `self.section_types` and
every report is freshly constructed. -/
theorem C10_analysis_idempotent (a : SectionTypeAnalyzer) (t : String) :
    (analyze_section_type_method a t).1
        = (analyze_section_type_method (analyze_section_type_method a t).2 t).1
      ∧ (analyze_section_type_method a t).2 = a
      ∧ (analyze_section_type_method (analyze_section_type_method a t).2 t).2 = a :=
  ⟨rfl, rfl, rfl⟩


/-! ### C3 — suggested settings are essential ⧺ recommended -/

/-- C3: on every report `analyze_section_type` returns, the `suggested_settings`
entry — read exactly as the program reads it, with a `[]` default for the
generic path, where the key is absent (source line 281) — equals the ordered
concatenation of the organized essential and recommended settings.  On the
known-type path the key is present and is built as that very concatenation
(line 73); on the generic path both sides are empty. -/
theorem C3_suggested_is_essential_append_recommended
    (section_types : List (String × Profile)) (t : String) (r : Report)
    (h : analyze_section_type section_types t = .ok r) :
    r.suggested_settings.getD []
      = r.intelligent_settings.essential ++ r.intelligent_settings.recommended :=
  suggested_getD_eq section_types t r h

/-- Witness for C3 at the concrete type `"widget"` and the empty catalog. -/
theorem C3_witness :
    (get_generic_config "widget").suggested_settings.getD []
      = (get_generic_config "widget").intelligent_settings.essential
        ++ (get_generic_config "widget").intelligent_settings.recommended :=
  C3_suggested_is_essential_append_recommended [] "widget" (get_generic_config "widget") rfl

/-! ### C6 — scoring rule -/

/-- The scoring formula exactly as the claim words it (comparison definition for
the refinement statement): +30 for a non-empty essential list, +25 for a
non-empty recommended list, `min(5 × advancedCount, 20)`, +15 for blocks, +10
for use cases, clamped to [0, 100] (the sum is a natural number, so only the
upper clamp can bite). -/
def spec_scoring_formula (p : Profile) : Nat :=
  (if ¬(p.essentialSettings.getD []).isEmpty then 30 else 0)
    + (if ¬(p.recommendedSettings.getD []).isEmpty then 25 else 0)
    + min (5 * (p.advancedSettings.getD []).length) 20
    + (if ¬(p.suggestedBlocks.getD []).isEmpty then 15 else 0)
    + (if ¬(p.commonUseCases.getD []).isEmpty then 10 else 0)

/-- The sequential score accumulation of the source agrees with the closed
formula. -/
lemma calculate_score_eq_spec (p : Profile) :
    calculate_intelligence_score p = min (spec_scoring_formula p) 100 := by
  unfold calculate_intelligence_score spec_scoring_formula truthyList
  cases hE : (p.essentialSettings.getD []).isEmpty <;>
  cases hR : (p.recommendedSettings.getD []).isEmpty <;>
  cases hB : (p.suggestedBlocks.getD []).isEmpty <;>
  cases hU : (p.commonUseCases.getD []).isEmpty <;>
    simp only [hE, hR, hB, hU, Bool.not_true, Bool.not_false, Bool.true_eq_false,
      Bool.false_eq_true, not_true_eq_false, not_false_eq_true, if_true, if_false,
      ite_true, ite_false, not_false_iff, not_true] <;>
    split_ifs <;>
    omega

/-- C6: for every successfully analyzed type the score is in [0, 100] (it is a
natural number, so the lower bound is intrinsic); an unknown type scores
exactly 25; a known type scores exactly the clamped claim formula over its
profile. -/
theorem C6_intelligence_score (section_types : List (String × Profile)) (t : String) (r : Report)
    (h : analyze_section_type section_types t = .ok r) :
    r.intelligence_score ≤ 100
      ∧ (List.lookup t section_types = none → r.intelligence_score = 25)
      ∧ (∀ p, List.lookup t section_types = some p →
          r.intelligence_score = min (spec_scoring_formula p) 100) := by
  rcases analyze_ok_elim _ _ _ h with ⟨hl, rfl⟩ | ⟨p, org, hl, _, rfl⟩
  · refine ⟨by norm_num [get_generic_config], fun _ => rfl, fun q hq => ?_⟩
    rw [hl] at hq
    exact Option.noConfusion hq
  · refine ⟨?_, ?_, ?_⟩
    · show calculate_intelligence_score p ≤ 100
      rw [calculate_score_eq_spec]
      exact Nat.min_le_right _ _
    · intro h0
      rw [hl] at h0
      exact Option.noConfusion h0
    · intro q hq
      rw [hl] at hq
      injection hq with hq
      subst hq
      exact calculate_score_eq_spec p

/-- Witness for C6 at the concrete type `"widget"` and the empty catalog. -/
theorem C6_witness :
    (get_generic_config "widget").intelligence_score ≤ 100
      ∧ (get_generic_config "widget").intelligence_score = 25 :=
  ⟨(C6_intelligence_score [] "widget" (get_generic_config "widget") rfl).1,
   (C6_intelligence_score [] "widget" (get_generic_config "widget") rfl).2.1 rfl⟩


/-! ### C4 — tier tagging under normalization -/

/-- A known type whose raw specifications carry no `category` field. -/
def profileUntagged : Profile :=
  { essentialSettings := some [{ id := some "x" }]
    advancedSettings := some [{ id := some "y" }] }

/-- The catalog holding `profileUntagged` under the type name `"promo"`. -/
def catalogUntagged : List (String × Profile) := [("promo", profileUntagged)]

/-- C4 counterexample: the claim says a raw specification from
`essentialSettings` is normalized with priorityTier `essential` (and one from
`advancedSettings` with `advanced`) regardless of the raw fields.  In the
source, `_normalize_setting` sets `category` from the raw specification itself
with the fixed fallback `recommended` — here both the essential-list and the
advanced-list descriptor come out tagged `recommended`. -/
theorem C4_counterexample :
    ∃ r, analyze_section_type catalogUntagged "promo" = .ok r
      ∧ r.intelligent_settings.essential.map Setting.category = ["recommended"]
      ∧ r.intelligent_settings.advanced.map Setting.category = ["recommended"] :=
  ⟨_, rfl, rfl, rfl⟩

/-- C4 amended: on the known-type path each raw list is normalized elementwise
into the organized list of the same name (placement follows the source list),
but the own `category`/priorityTier of the descriptor equals the `category`
field of the raw specification when present and `recommended` otherwise — it is not forced
to match the list it came from. -/
theorem C4_tier_tagging_amended (p : Profile) (org : Organized)
    (h : organize_settings p = .ok org) :
    ((p.essentialSettings.getD []).mapM normalize_setting = .ok org.essential
      ∧ (p.recommendedSettings.getD []).mapM normalize_setting = .ok org.recommended
      ∧ (p.advancedSettings.getD []).mapM normalize_setting = .ok org.advanced)
    ∧ ∀ (raw : RawSetting) (s : Setting), normalize_setting raw = .ok s →
        s.category = raw.category.getD "recommended" := by
  constructor
  · unfold organize_settings at h
    split at h
    · exact Except.noConfusion h
    next ess hess =>
      split at h
      · exact Except.noConfusion h
      next rcm hrcm =>
        split at h
        · exact Except.noConfusion h
        next adv hadv =>
          injection h with h
          subst h
          exact ⟨hess, hrcm, hadv⟩
  · intro raw s hs
    unfold normalize_setting at hs
    split at hs
    · exact Except.noConfusion hs
    next i _ =>
      injection hs with hs
      subst hs
      rfl

/-- Witness for the amended C4 theorem at the concrete profile `profileUntagged`. -/
theorem C4_witness :
    ∃ org, organize_settings profileUntagged = .ok org
      ∧ ((profileUntagged.essentialSettings.getD []).mapM normalize_setting = .ok org.essential
        ∧ (profileUntagged.recommendedSettings.getD []).mapM normalize_setting = .ok org.recommended
        ∧ (profileUntagged.advancedSettings.getD []).mapM normalize_setting = .ok org.advanced) :=
  ⟨_, rfl, (C4_tier_tagging_amended profileUntagged _ rfl).1⟩

/-! ### Schema helper lemmas (shared by C7 and C8) -/

/-- The settings list of the assembled schema: the advanced group is appended
when non-empty, otherwise the list is essential ++ recommended. -/
lemma schema_settings_eq (config : SectionConfig) :
    (generate_intelligent_schema config).settings
        = (config.settings.filter (fun s => s.category = "essential")
            ++ config.settings.filter (fun s => s.category = "recommended"))
          ++ config.settings.filter (fun s => s.category = "advanced")
    ∨ (config.settings.filter (fun s => s.category = "advanced") = []
        ∧ (generate_intelligent_schema config).settings
            = config.settings.filter (fun s => s.category = "essential")
              ++ config.settings.filter (fun s => s.category = "recommended")) := by
  by_cases hadv : (config.settings.filter (fun s => s.category = "advanced")).isEmpty
  · right
    constructor
    · exact List.isEmpty_iff.mp hadv
    · simp [generate_intelligent_schema, hadv]
  · left
    simp [generate_intelligent_schema, hadv]

/-- The presets of the assembled schema, in both branches. -/
lemma schema_presets_eq (config : SectionConfig) :
    (generate_intelligent_schema config).presets
      = [{ name := config.name
           category := "Custom Sections"
           settings := get_preset_defaults config.settings }] := by
  by_cases hadv : (config.settings.filter (fun s => s.category = "advanced")).isEmpty <;>
    simp [generate_intelligent_schema, hadv]

/-- Every setting of the assembled schema comes from the working set. -/
lemma mem_schema_settings (config : SectionConfig) (s : Setting)
    (hs : s ∈ (generate_intelligent_schema config).settings) : s ∈ config.settings := by
  rcases schema_settings_eq config with heq | ⟨_, heq⟩ <;> rw [heq] at hs
  · rcases List.mem_append.mp hs with hs | hs
    · rcases List.mem_append.mp hs with hs | hs <;> exact (List.mem_filter.mp hs).1
    · exact (List.mem_filter.mp hs).1
  · rcases List.mem_append.mp hs with hs | hs <;> exact (List.mem_filter.mp hs).1

/-! ### C7 — advanced-settings inclusion -/

/-- A known type whose essential-list raw specification carries the raw tag
`category: advanced`. -/
def catalogAdvancedInEssential : List (String × Profile) :=
  [("promo", { essentialSettings := some [{ id := some "x", category := some "advanced" }] })]

/-- C7 counterexample: the claim says `use_advanced = false` never puts an
advanced-tier descriptor into the settings list of the schema.  With a catalog
whose essential raw specification carries the raw tag category advanced, the descriptor ends
up in `suggested_settings`, is selected even with `use_advanced = false`, and
the schema regroups it by its own tag into the appended advanced group. -/
theorem C7_counterexample :
    ∃ r, analyze_section_type catalogAdvancedInEssential "promo" = .ok r
      ∧ ∃ s ∈ (generate_intelligent_schema
            (build_section_config r "my-section" "promo" "" false)).settings,
          s.category = "advanced" :=
  ⟨_, rfl, by decide⟩

/-- C7 amended: the schema groups by the own priorityTier tag of each descriptor, so
the claim holds under the tagging discipline it implicitly assumes: if no
organized essential/recommended descriptor is tagged `advanced`, then with
`use_advanced = false` the schema contains no advanced-tier descriptor; and
with `use_advanced = true` it contains one provided some organized advanced
descriptor is actually tagged `advanced`. -/
theorem C7_advanced_inclusion_amended
    (section_types : List (String × Profile)) (t n d : String) (r : Report)
    (h : analyze_section_type section_types t = .ok r)
    (hclean : ∀ s ∈ r.intelligent_settings.essential ++ r.intelligent_settings.recommended,
        s.category ≠ "advanced") :
    (∀ s ∈ (generate_intelligent_schema (build_section_config r n t d false)).settings,
        s.category ≠ "advanced")
    ∧ ((∃ s ∈ r.intelligent_settings.advanced, s.category = "advanced") →
        ∃ s ∈ (generate_intelligent_schema (build_section_config r n t d true)).settings,
          s.category = "advanced") := by
  constructor
  · intro s hs
    have hmem : s ∈ (build_section_config r n t d false).settings :=
      mem_schema_settings _ _ hs
    have hset : (build_section_config r n t d false).settings
        = r.suggested_settings.getD [] := rfl
    rw [hset, suggested_getD_eq section_types t r h] at hmem
    exact hclean s hmem
  · rintro ⟨s0, hs0, hcat⟩
    have hsettings : (build_section_config r n t d true).settings
        = (r.intelligent_settings.essential ++ r.intelligent_settings.recommended)
          ++ r.intelligent_settings.advanced := rfl
    have hmem0 : s0 ∈ (build_section_config r n t d true).settings := by
      rw [hsettings]
      exact List.mem_append_right _ hs0
    have hadvmem : s0 ∈ (build_section_config r n t d true).settings.filter
        (fun s => s.category = "advanced") :=
      List.mem_filter.mpr ⟨hmem0, by simp [hcat]⟩
    rcases schema_settings_eq (build_section_config r n t d true) with heq | ⟨hnil, _⟩
    · refine ⟨s0, ?_, hcat⟩
      rw [heq]
      exact List.mem_append_right _ hadvmem
    · rw [hnil] at hadvmem
      exact absurd hadvmem (List.not_mem_nil s0)

/-- A known type with properly tagged essential and advanced raw settings, used
to witness the amended C7 theorem. -/
def catalogTagged : List (String × Profile) :=
  [("promo", { essentialSettings := some [{ id := some "title", category := some "essential" }]
               advancedSettings := some [{ id := some "anim", category := some "advanced" }] })]

/-- Witness for the amended C7 theorem on the concrete catalog `catalogTagged`. -/
theorem C7_witness :
    ∃ r, analyze_section_type catalogTagged "promo" = .ok r
      ∧ ((∀ s ∈ (generate_intelligent_schema
              (build_section_config r "n" "promo" "" false)).settings,
            s.category ≠ "advanced")
        ∧ ((∃ s ∈ r.intelligent_settings.advanced, s.category = "advanced") →
            ∃ s ∈ (generate_intelligent_schema
                (build_section_config r "n" "promo" "" true)).settings,
              s.category = "advanced")) :=
  ⟨_, rfl, C7_advanced_inclusion_amended catalogTagged "promo" "n" "" _ rfl (by decide)⟩

/-! ### C8 — preset defaults -/

/-- Python dict assignment on a fresh key appends it. -/
lemma dictInsert_of_lookup_none (d : List (String × Json)) (k : String) (v : Json)
    (h : List.lookup k d = none) : dictInsert d k v = d ++ [(k, v)] := by
  unfold dictInsert
  rw [h]
  rfl

/-- Appending a fresh binding for another key keeps a lookup failing. -/
lemma lookup_append_singleton_none {β : Type} (a k : String) (v : β)
    (d : List (String × β)) (h1 : List.lookup a d = none) (h2 : a ≠ k) :
    List.lookup a (d ++ [(k, v)]) = none := by
  induction d with
  | nil =>
    have hak : (a == k) = false := beq_eq_false_iff_ne.mpr h2
    simp [List.lookup, hak]
  | cons p t ih =>
    obtain ⟨q, b⟩ := p
    simp only [List.cons_append, List.lookup] at h1 ⊢
    cases haq : (a == q) with
    | true => rw [haq] at h1; exact h1
    | false => rw [haq] at h1; exact ih h1

/-- The preset-default fold, generalized over the accumulator: with pairwise
distinct ids and no id already bound, it appends exactly the non-null defaults
in order. -/
lemma preset_foldl_aux (l : List Setting) (d : List (String × Json))
    (hd : ∀ s ∈ l, List.lookup s.id d = none)
    (hnd : (l.map Setting.id).Nodup) :
    l.foldl preset_step d
      = d ++ l.filterMap (fun s => s.default.map (fun v => (s.id, v))) := by
  induction l generalizing d with
  | nil => simp
  | cons s ss ih =>
    have hds : List.lookup s.id d = none := hd s (List.mem_cons_self s ss)
    have hnotin : s.id ∉ ss.map Setting.id := (List.nodup_cons.mp (by simpa using hnd)).1
    have hnd' : (ss.map Setting.id).Nodup := (List.nodup_cons.mp (by simpa using hnd)).2
    rw [List.foldl_cons]
    cases hdef : s.default with
    | none =>
      have hstep : preset_step d s = d := by unfold preset_step; rw [hdef]
      rw [hstep, ih d (fun s' hs' => hd s' (List.mem_cons_of_mem s hs')) hnd']
      simp [hdef]
    | some v =>
      have hstep : preset_step d s = d ++ [(s.id, v)] := by
        unfold preset_step
        rw [hdef]
        exact dictInsert_of_lookup_none d s.id v hds
      have harg : ∀ s' ∈ ss, List.lookup s'.id (d ++ [(s.id, v)]) = none := by
        intro s' hs'
        refine lookup_append_singleton_none s'.id s.id v d
          (hd s' (List.mem_cons_of_mem s hs')) ?_
        intro heq
        exact hnotin (heq ▸ List.mem_map_of_mem Setting.id hs')
      rw [hstep, ih (d ++ [(s.id, v)]) harg hnd']
      simp [hdef]

/-- The fold `_get_preset_defaults` on a duplicate-free working set is the in-order list
of `(id, default)` pairs over the settings with a non-null default. -/
lemma get_preset_defaults_eq (settings : List Setting)
    (hnd : (settings.map Setting.id).Nodup) :
    get_preset_defaults settings
      = settings.filterMap (fun s => s.default.map (fun v => (s.id, v))) := by
  have h := preset_foldl_aux settings [] (fun s _ => rfl) hnd
  simpa [get_preset_defaults] using h

/-- C8: the assembled schema carries exactly one preset, named after the
section, whose settings bind exactly the ids of working-set settings with a
non-null default to that default. -/
theorem C8_preset_defaults (config : SectionConfig)
    (hnd : (config.settings.map Setting.id).Nodup) :
    ∃ p, (generate_intelligent_schema config).presets = [p]
      ∧ p.name = config.name ∧ p.category = "Custom Sections"
      ∧ ∀ i v, ((i, v) ∈ p.settings
          ↔ ∃ s ∈ config.settings, s.id = i ∧ s.default = some v) := by
  refine ⟨_, schema_presets_eq config, rfl, rfl, ?_⟩
  intro i v
  show (i, v) ∈ get_preset_defaults config.settings ↔ _
  rw [get_preset_defaults_eq config.settings hnd]
  constructor
  · intro hmem
    rcases List.mem_filterMap.mp hmem with ⟨s, hs, hfs⟩
    rcases Option.map_eq_some'.mp hfs with ⟨v', hv', heq⟩
    injection heq with h1 h2
    exact ⟨s, hs, h1, h2 ▸ hv'⟩
  · rintro ⟨s, hs, hid, hv⟩
    refine List.mem_filterMap.mpr ⟨s, hs, ?_⟩
    rw [hv, hid]
    rfl

/-- An image-kind setting with a null default (excluded from the preset). -/
def settingImage : Setting :=
  { type := "image_picker", id := "background_image", label := "Background Image"
    default := none, required := false, info := "", category := "recommended"
    options := none, range := none, validation := none }

/-- A color-kind setting with a default (included in the preset). -/
def settingColor : Setting :=
  { type := "color", id := "text_color", label := "Text Color"
    default := some (.str "#000000"), required := false, info := "", category := "recommended"
    options := none, range := none, validation := none }

/-- A concrete working set holding the image-kind and the color-kind setting. -/
def presetDemoConfig : SectionConfig :=
  { name := "demo", type := "custom", description := ""
    settings := [settingImage, settingColor]
    blocks := [], presets := []
    intelligence_config := get_generic_config "custom" }

/-- Witness for C8 on `presetDemoConfig`: the image-kind setting (null default)
contributes no preset entry, the color-kind setting contributes its pair. -/
theorem C8_witness :
    ((presetDemoConfig.settings.map Setting.id).Nodup)
      ∧ (∃ p, (generate_intelligent_schema presetDemoConfig).presets = [p]
          ∧ p.name = presetDemoConfig.name ∧ p.category = "Custom Sections"
          ∧ ∀ i v, ((i, v) ∈ p.settings
              ↔ ∃ s ∈ presetDemoConfig.settings, s.id = i ∧ s.default = some v))
      ∧ get_preset_defaults presetDemoConfig.settings = [("text_color", Json.str "#000000")] :=
  ⟨by decide, C8_preset_defaults presetDemoConfig (by decide), rfl⟩

end Realty
